import Mathlib

/-!
Verification of the `v1_gate.py` quality gate of hwp-bridge.

The script is embedded shallowly:

* Machine reals (Python `float`) are modelled by `ℚ`; Python's `round(x, 4)`
  (round half to even) is `round4`.
* Byte strings captured from subprocesses are modelled as `String` (the script
  decodes them with `errors="replace"` before matching).
* The external world — the filesystem, the SHA-256 function of `hashlib`, and
  the JSON decoder used only for optional statistics — enters as explicit
  parameters (`is_file`, `hash`, `parse_stats`): the embedded functions are
  parametric in them exactly where the script calls out of pure code.
* A subprocess invocation is a record of exit code, captured stdout/stderr and
  elapsed milliseconds; `run_cmd`'s timeout branch is represented by the
  caller supplying exit code 124 together with the partial output, which is
  precisely what `run_cmd` returns on `TimeoutExpired`.
-/

namespace V1Gate

/-- Python substring test `needle in hay` on lists of characters. -/
def listContains (needle : List Char) : List Char → Bool
  | [] => needle.isEmpty
  | c :: t => needle.isPrefixOf (c :: t) || listContains needle t

/-- Python `needle in hay` for strings. -/
def strContains (hay needle : String) : Bool :=
  listContains needle.toList hay.toList

/-- Outcome of one subprocess invocation as returned by `run_cmd`:
`(code, stdout, stderr, elapsed_ms)`.  A timed-out invocation appears with
`code = 124` and the output captured before the deadline. -/
structure Invocation where
  code : ℤ
  stdout : String
  stderr : String
  ms : ℕ
deriving DecidableEq

/-- The per-file record written to the details artifact (`RunResult` of
`v1_gate.py`). -/
structure RunResult where
  relpath : String
  category : Option String
  size_bytes : ℕ
  ok : Bool
  error : Option String
  timing_ms : ℕ
  out_sha256_a : Option String
  out_sha256_b : Option String
  deterministic : Option Bool
  md_sha256_a : Option String
  md_sha256_b : Option String
  md_deterministic : Option Bool
  sections : Option ℕ
  paragraphs : Option ℕ
  tables : Option ℕ
deriving DecidableEq

/-- Rule 1 of `classify_error`: `"encrypted" in text or "encryption" in text`. -/
def ruleEncrypted (text : String) : Bool :=
  strContains text "encrypted" || strContains text "encryption"

/-- Rule 2 of `classify_error`: `"distribution" in text`. -/
def ruleDistribution (text : String) : Bool :=
  strContains text "distribution"

/-- Rule 3 of `classify_error`:
`"size limit" in text or "sizelimit" in text or "limit exceeded" in text`. -/
def ruleSizeLimit (text : String) : Bool :=
  strContains text "size limit" || strContains text "sizelimit"
    || strContains text "limit exceeded"

/-- `classify_error(stderr, stdout, code)` of `v1_gate.py` (lines 91–101):
lower-case the concatenation `stderr + b"\n" + stdout` and test the rules in
order, the first match winning. -/
def classify_error (stderr stdout : String) (code : ℤ) : String :=
  let text := (stderr ++ "\n" ++ stdout).toLower
  if ruleEncrypted text then "encrypted"
  else if ruleDistribution text then "distribution"
  else if ruleSizeLimit text then "size_limit"
  else if code = 124 then "timeout"
  else "parse_error"

/-- Mathematical floor of a rational, computed on the numerator/denominator
(`Int.fdiv` is floor division). -/
def ratFloor (q : ℚ) : ℤ :=
  Int.fdiv q.num (q.den : ℤ)

/-- Python's `round(x)`: nearest integer, ties to even. -/
def roundHalfEven (q : ℚ) : ℤ :=
  let f := ratFloor q
  let r := q - (f : ℚ)
  if r < 1/2 then f
  else if 1/2 < r then f + 1
  else if f % 2 = 0 then f else f + 1

/-- Python's `round(x, 4)`. -/
def round4 (q : ℚ) : ℚ :=
  (roundHalfEven (q * 10000) : ℚ) / 10000

/-- The three timing percentiles returned by `percentiles`. -/
structure Percentiles where
  p50 : ℕ
  p95 : ℕ
  p99 : ℕ
deriving DecidableEq

/-- The nearest-rank index `max(0, min(len(v)-1, round(p*(len(v)-1))))` used by
`percentiles` on the sorted list `v`. -/
def pickIdx (n : ℕ) (p : ℚ) : ℕ :=
  (max 0 (min ((n : ℤ) - 1) (roundHalfEven (p * ((n : ℤ) - 1 : ℤ))))).toNat

/-- `pick(p)` inside `percentiles`: index into the sorted list. -/
def pick (v : List ℕ) (p : ℚ) : ℕ :=
  v.getD (pickIdx v.length p) 0

/-- `percentiles(values)` of `v1_gate.py`. -/
def percentiles (values : List ℕ) : Percentiles :=
  if values = [] then ⟨0, 0, 0⟩
  else
    let v := List.insertionSort (· ≤ ·) values
    ⟨pick v (1/2), pick v (95/100), pick v (99/100)⟩

/-- `rate(ok, total)` of `v1_gate.py`: `ok / total` with 0 for an empty
denominator. -/
def rate (ok total : ℕ) : ℚ :=
  if total ≠ 0 then (ok : ℚ) / (total : ℚ) else 0

/-- The five invocation outcomes the main loop observes for one corpus file:
`info`, the two `json` runs, and the two `markdown` runs (the latter are
consulted only when `--check-markdown` is set). -/
structure FileInputs where
  relpath : String
  category : Option String
  size_bytes : ℕ
  info : Invocation
  json_a : Invocation
  json_b : Invocation
  md_a : Invocation
  md_b : Invocation
deriving DecidableEq

/-- Python `a or b` on integers: `a` when `a` is truthy (nonzero), else `b`. -/
def pyOrInt (a b : ℤ) : ℤ :=
  if a ≠ 0 then a else b

/-- The concatenated stderr of all invocations, as passed to `classify_error`
(line 272); the markdown streams are `b""` when the check is disabled. -/
def concatStderr (check_markdown : Bool) (f : FileInputs) : String :=
  f.info.stderr ++ f.json_a.stderr ++ f.json_b.stderr
    ++ (if check_markdown then f.md_a.stderr else "")
    ++ (if check_markdown then f.md_b.stderr else "")

/-- The concatenated stdout of all invocations, as passed to `classify_error`
(line 273). -/
def concatStdout (check_markdown : Bool) (f : FileInputs) : String :=
  f.info.stdout ++ f.json_a.stdout ++ f.json_b.stdout
    ++ (if check_markdown then f.md_a.stdout else "")
    ++ (if check_markdown then f.md_b.stdout else "")

/-- The exit code handed to `classify_error` (line 274):
`code_a or code_i or md_code_a or md_code_b`.  Note that `code_b` is absent. -/
def selectedCode (check_markdown : Bool) (f : FileInputs) : ℤ :=
  pyOrInt (pyOrInt (pyOrInt f.json_a.code f.info.code)
      (if check_markdown then f.md_a.code else 0))
    (if check_markdown then f.md_b.code else 0)

/-- The lower-cased text `classify_error` matches against for one file. -/
def fileText (check_markdown : Bool) (f : FileInputs) : String :=
  (concatStderr check_markdown f ++ "\n" ++ concatStdout check_markdown f).toLower

/-- Body of the per-file loop of `main` (lines 218–295), producing the
`RunResult` record.  `hash` stands for `hashlib.sha256(...).hexdigest()` and
`parse_stats` for the `json.loads`-based statistics block (returning `none` on
any parse failure), both external to the script's own logic. -/
def processFile (hash : String → String) (parse_stats : String → Option (ℕ × ℕ × ℕ))
    (check_markdown : Bool) (f : FileInputs) : RunResult :=
  let md_code_a := if check_markdown then f.md_a.code else 0
  let md_code_b := if check_markdown then f.md_b.code else 0
  let md_out_a := if check_markdown then f.md_a.stdout else ""
  let md_out_b := if check_markdown then f.md_b.stdout else ""
  let ms_m1 := if check_markdown then f.md_a.ms else 0
  let ms_m2 := if check_markdown then f.md_b.ms else 0
  let mdRan := check_markdown ∧ md_code_a = 0 ∧ md_code_b = 0
  let md_sha_a := if mdRan then some (hash md_out_a) else none
  let md_sha_b := if mdRan then some (hash md_out_b) else none
  let md_det : Option Bool := if mdRan then some (hash md_out_a == hash md_out_b) else none
  let ok := (f.info.code == 0) && (f.json_a.code == 0) && (f.json_b.code == 0)
    && (!check_markdown || ((md_code_a == 0) && (md_code_b == 0)))
  let err : Option String :=
    if ok then none
    else some (classify_error (concatStderr check_markdown f)
      (concatStdout check_markdown f) (selectedCode check_markdown f))
  let sha_a := if ok then some (hash f.json_a.stdout) else none
  let sha_b := if ok then some (hash f.json_b.stdout) else none
  let det : Option Bool :=
    if ok then some (hash f.json_a.stdout == hash f.json_b.stdout) else none
  let stats := if ok then parse_stats f.json_a.stdout else none
  { relpath := f.relpath
    category := f.category
    size_bytes := f.size_bytes
    ok := ok
    error := err
    timing_ms := f.info.ms + f.json_a.ms + f.json_b.ms + ms_m1 + ms_m2
    out_sha256_a := sha_a
    out_sha256_b := sha_b
    deterministic := det
    md_sha256_a := md_sha_a
    md_sha256_b := md_sha_b
    md_deterministic := md_det
    sections := stats.map (·.1)
    paragraphs := stats.map (·.2.1)
    tables := stats.map (·.2.2) }

/-- The four-way bucket key of the per-category aggregation (line 319):
`r.category if r.category in {"A","B","C"} else "_"`. -/
def bucket (r : RunResult) : String :=
  match r.category with
  | some c => if c = "A" ∨ c = "B" ∨ c = "C" then c else "_"
  | none => "_"

/-- `ok_count` (line 302). -/
def okCount (rs : List RunResult) : ℕ :=
  rs.countP (·.ok)

/-- `det_count` (line 303): `r.ok and r.deterministic`, where a `None` or
`False` determinism field is falsy. -/
def detCount (rs : List RunResult) : ℕ :=
  rs.countP (fun r => r.ok && r.deterministic.getD false)

/-- `cat_totals[k]` (lines 316–320). -/
def catTotal (rs : List RunResult) (k : String) : ℕ :=
  rs.countP (fun r => bucket r == k)

/-- `cat_ok[k]` (lines 317–322). -/
def catOk (rs : List RunResult) (k : String) : ℕ :=
  rs.countP (fun r => (bucket r == k) && r.ok)

/-- `cat_rates[k]` (line 324): the per-category success rate rounded to four
decimal places; this is both the value reported in the summary and the value
the gate compares against the category thresholds. -/
def catRate (rs : List RunResult) (k : String) : ℚ :=
  round4 (rate (catOk rs k) (catTotal rs k))

/-- `det_rate` (line 305): determinism rate, successes in the denominator,
not rounded (the summary reports `round(det_rate, 4)` but the gate compares
this exact value). -/
def detRate (rs : List RunResult) : ℚ :=
  rate (detCount rs) (okCount rs)

/-- The elapsed-time list fed to `percentiles` (line 306): timings of the
successful files only. -/
def timings (rs : List RunResult) : List ℕ :=
  (rs.filter (·.ok)).map (·.timing_ms)

/-- The histogram key of a failed record (line 313): `r.error or "unknown"`,
where `None` and the empty string are falsy. -/
def histKey (r : RunResult) : String :=
  match r.error with
  | some s => if s = "" then "unknown" else s
  | none => "unknown"

/-- `failures_by_type[k]` (lines 309–313): failed records counted by their
histogram key. -/
def failuresByType (rs : List RunResult) (k : String) : ℕ :=
  rs.countP (fun r => !r.ok && (histKey r == k))

/-- The threshold configuration of the gate (`--min-corpus-size`,
`--min-success-a/b/c`, `--min-deterministic-rate`). -/
structure Config where
  min_corpus_size : ℤ
  min_success_a : ℚ
  min_success_b : ℚ
  min_success_c : ℚ
  min_deterministic_rate : ℚ
deriving DecidableEq

/-- The gate evaluation of lines 361–376: `gate_ok` starts `True` and each
threshold violation sets it `False`.  Mirrors the Python truthiness test
`if args.min_corpus_size and total < args.min_corpus_size`. -/
def gateOk (cfg : Config) (rs : List RunResult) : Bool :=
  if cfg.min_corpus_size ≠ 0 ∧ (rs.length : ℤ) < cfg.min_corpus_size then false
  else if 0 < catTotal rs "A" ∧ catRate rs "A" < cfg.min_success_a then false
  else if 0 < catTotal rs "B" ∧ catRate rs "B" < cfg.min_success_b then false
  else if 0 < catTotal rs "C" ∧ catRate rs "C" < cfg.min_success_c then false
  else if detRate rs < cfg.min_deterministic_rate then false
  else true

/-- The exit code of `main`, with the three setup checks in program order
(missing corpus dir, empty resolved file list, missing binary → 3) followed by
the gate verdict (0 or 2).  `rs` is the list of per-file records, one per
resolved corpus file. -/
def mainExit (corpus_exists hwp_bin_exists : Bool) (cfg : Config)
    (rs : List RunResult) : ℕ :=
  if !corpus_exists then 3
  else if rs = [] then 3
  else if !hwp_bin_exists then 3
  else if gateOk cfg rs then 0 else 2

/-- `find_corpus_files` (lines 142–159).  The filesystem enters as the
predicate `is_file` (Python's `p.exists() and p.is_file()`) and as `scan`, the
raw `corpus_dir.rglob("*.hwp")` listing in relative-posix form, which the
script sorts.  The category map is the manifest mapping in its declared
(insertion) order. -/
def findCorpusFiles (is_file : String → Bool) (scan : List String)
    (category_map : List (String × Option String)) : List String :=
  if category_map ≠ [] then
    let files := (category_map.map Prod.fst).filter is_file
    if files ≠ [] then files
    else (List.insertionSort (· ≤ ·) scan).filter is_file
  else (List.insertionSort (· ≤ ·) scan).filter is_file

/-- The `--max-files` cap of lines 198–199, with Python truthiness:
`if args.max_files and args.max_files > 0: files = files[:args.max_files]`. -/
def applyCap (max_files : ℤ) (files : List String) : List String :=
  if max_files ≠ 0 ∧ 0 < max_files then files.take max_files.toNat else files

/-- Modelled from the spec (§4.2 CorpusEnumerator), for comparison with
`findCorpusFiles`: "If the category mapping is non-empty, enumerate files in
the mapping's declared order, keeping only entries that exist as regular files
under the corpus root ... If the mapping is empty (or yields nothing), fall
back to a full recursive scan of the corpus root ... sorted by path". -/
def resolvedFilesSpec (is_file : String → Bool) (scan : List String)
    (category_map : List (String × Option String)) : List String :=
  let mapped := (category_map.map Prod.fst).filter is_file
  if category_map ≠ [] ∧ mapped ≠ [] then mapped
  else (List.insertionSort (· ≤ ·) scan).filter is_file

/-- The exact (unrounded) per-category success ratio, for contrast with the
rounded `catRate` that the gate compares. -/
def exactCatRate (rs : List RunResult) (k : String) : ℚ :=
  rate (catOk rs k) (catTotal rs k)

/-- Some configured invocation of the file received the timeout sentinel. -/
def anyTimedOut (check_markdown : Bool) (f : FileInputs) : Bool :=
  (f.info.code == 124) || (f.json_a.code == 124) || (f.json_b.code == 124)
    || (check_markdown && (f.md_a.code == 124))
    || (check_markdown && (f.md_b.code == 124))

/-- Stand-in hash function for concrete evaluations (the claims under test
depend only on whether hash fields are set and on hash equality of equal
inputs, not on the SHA-256 digits themselves). -/
def hash0 : String → String := fun s => s

/-- Stand-in for the statistics JSON parser in concrete evaluations. -/
def stats0 : String → Option (ℕ × ℕ × ℕ) := fun _ => none

/-- A successful invocation with empty output. -/
def okInv : Invocation := ⟨0, "", "", 1⟩

/-- A timed-out invocation: `run_cmd` returns code 124 and empty partial
output. -/
def timeoutInv : Invocation := ⟨124, "", "", 30000⟩

/-- A crashed invocation (exit code 1) with empty output. -/
def failInv : Invocation := ⟨1, "", "", 1⟩

/-- A file whose second `json` invocation timed out and whose other
invocations succeeded with empty output. -/
def fileTimeoutB : FileInputs := ⟨"b.hwp", none, 4, okInv, okInv, timeoutInv, okInv, okInv⟩

/-- A file whose `info` invocation timed out and whose other invocations
succeeded with empty output. -/
def fileTimeoutInfo : FileInputs := ⟨"i.hwp", none, 4, timeoutInv, okInv, okInv, okInv, okInv⟩

/-- A file whose `info` invocation crashed while both `markdown` invocations
succeeded. -/
def fileMdOnlyFail : FileInputs := ⟨"m.hwp", none, 4, failInv, okInv, okInv, okInv, okInv⟩

/-- A category-A record of a successful, deterministic run. -/
def recOkDetA : RunResult :=
  ⟨"x.hwp", some "A", 1, true, none, 10, some "h", some "h", some true,
    none, none, none, none, none, none⟩

/-- A category-A record of a successful but non-deterministic run. -/
def recOkNonDetA : RunResult :=
  ⟨"y.hwp", some "A", 1, true, none, 12, some "h1", some "h2", some false,
    none, none, none, none, none, none⟩

/-- A category-A record of a failed run. -/
def recFailA : RunResult :=
  ⟨"z.hwp", some "A", 1, false, some "parse_error", 10, none, none, none,
    none, none, none, none, none, none⟩

/- Helper lemmas shared by the claim theorems. -/

theorem processFile_error_eq (hash : String → String)
    (ps : String → Option (ℕ × ℕ × ℕ)) (cm : Bool) (f : FileInputs) :
    (processFile hash ps cm f).error
      = if (processFile hash ps cm f).ok then none
        else some (classify_error (concatStderr cm f) (concatStdout cm f)
          (selectedCode cm f)) := rfl

theorem processFile_ok_iff (hash : String → String)
    (ps : String → Option (ℕ × ℕ × ℕ)) (cm : Bool) (f : FileInputs) :
    (processFile hash ps cm f).ok = true ↔
      (f.info.code = 0 ∧ f.json_a.code = 0 ∧ f.json_b.code = 0
        ∧ (cm = false ∨ (f.md_a.code = 0 ∧ f.md_b.code = 0))) := by
  cases cm <;> simp [processFile] <;> tauto

theorem classify_timeout_iff (stderr stdout : String) (code : ℤ) :
    classify_error stderr stdout code = "timeout" ↔
      (ruleEncrypted ((stderr ++ "\n" ++ stdout).toLower) = false
        ∧ ruleDistribution ((stderr ++ "\n" ++ stdout).toLower) = false
        ∧ ruleSizeLimit ((stderr ++ "\n" ++ stdout).toLower) = false
        ∧ code = 124) := by
  unfold classify_error
  cases h1 : ruleEncrypted ((stderr ++ "\n" ++ stdout).toLower) <;>
    cases h2 : ruleDistribution ((stderr ++ "\n" ++ stdout).toLower) <;>
      cases h3 : ruleSizeLimit ((stderr ++ "\n" ++ stdout).toLower) <;>
        by_cases h4 : code = 124 <;> simp [h1, h2, h3, h4]

theorem classify_mem (stderr stdout : String) (code : ℤ) :
    classify_error stderr stdout code = "encrypted"
    ∨ classify_error stderr stdout code = "distribution"
    ∨ classify_error stderr stdout code = "size_limit"
    ∨ classify_error stderr stdout code = "timeout"
    ∨ classify_error stderr stdout code = "parse_error" := by
  unfold classify_error
  cases h1 : ruleEncrypted ((stderr ++ "\n" ++ stdout).toLower) <;>
    cases h2 : ruleDistribution ((stderr ++ "\n" ++ stdout).toLower) <;>
      cases h3 : ruleSizeLimit ((stderr ++ "\n" ++ stdout).toLower) <;>
        by_cases h4 : code = 124 <;> simp [h1, h2, h3, h4]

/-- C2: the record's success flag is true exactly when every configured
invocation exited with status 0 — the `info` invocation, both `json`
invocations, and, when the markdown check is enabled, both `markdown`
invocations. -/
theorem ok_iff_every_invocation_succeeded (hash : String → String)
    (ps : String → Option (ℕ × ℕ × ℕ)) (cm : Bool) (f : FileInputs) :
    (processFile hash ps cm f).ok = true ↔
      (f.info.code = 0 ∧ f.json_a.code = 0 ∧ f.json_b.code = 0
        ∧ (cm = false ∨ (f.md_a.code = 0 ∧ f.md_b.code = 0))) :=
  processFile_ok_iff hash ps cm f

/-- C3: `classify_error` returns exactly one kind, by fixed priority with the
first matching rule winning — "encrypted" when the lower-cased text mentions
encryption, else "distribution", else "size_limit", else "timeout" if and
only if the exit status equals the timeout sentinel 124, else "parse_error".
Rules 1–3 match on text even when the status is 124. -/
theorem classify_error_priority (stderr stdout : String) (code : ℤ) :
    (classify_error stderr stdout code = "encrypted"
        ↔ ruleEncrypted ((stderr ++ "\n" ++ stdout).toLower) = true)
    ∧ (classify_error stderr stdout code = "distribution"
        ↔ ruleEncrypted ((stderr ++ "\n" ++ stdout).toLower) = false
            ∧ ruleDistribution ((stderr ++ "\n" ++ stdout).toLower) = true)
    ∧ (classify_error stderr stdout code = "size_limit"
        ↔ ruleEncrypted ((stderr ++ "\n" ++ stdout).toLower) = false
            ∧ ruleDistribution ((stderr ++ "\n" ++ stdout).toLower) = false
            ∧ ruleSizeLimit ((stderr ++ "\n" ++ stdout).toLower) = true)
    ∧ (classify_error stderr stdout code = "timeout"
        ↔ ruleEncrypted ((stderr ++ "\n" ++ stdout).toLower) = false
            ∧ ruleDistribution ((stderr ++ "\n" ++ stdout).toLower) = false
            ∧ ruleSizeLimit ((stderr ++ "\n" ++ stdout).toLower) = false
            ∧ code = 124)
    ∧ (classify_error stderr stdout code = "parse_error"
        ↔ ruleEncrypted ((stderr ++ "\n" ++ stdout).toLower) = false
            ∧ ruleDistribution ((stderr ++ "\n" ++ stdout).toLower) = false
            ∧ ruleSizeLimit ((stderr ++ "\n" ++ stdout).toLower) = false
            ∧ code ≠ 124) := by
  unfold classify_error
  cases h1 : ruleEncrypted ((stderr ++ "\n" ++ stdout).toLower) <;>
    cases h2 : ruleDistribution ((stderr ++ "\n" ++ stdout).toLower) <;>
      cases h3 : ruleSizeLimit ((stderr ++ "\n" ++ stdout).toLower) <;>
        by_cases h4 : code = 124 <;> simp [h1, h2, h3, h4]

set_option maxRecDepth 100000

/-- C4 counterexample: the second `json` invocation of `fileTimeoutB` timed
out (exit status 124) and no classifier text matches, yet the record's error
kind is "parse_error", not "timeout" — because line 274 selects
`code_a or code_i or md_code_a or md_code_b`, which omits `code_b`. -/
theorem timeout_in_json_b_misclassified :
    fileTimeoutB.json_b.code = 124
    ∧ (processFile hash0 stats0 false fileTimeoutB).ok = false
    ∧ ruleEncrypted (fileText false fileTimeoutB) = false
    ∧ ruleDistribution (fileText false fileTimeoutB) = false
    ∧ ruleSizeLimit (fileText false fileTimeoutB) = false
    ∧ (processFile hash0 stats0 false fileTimeoutB).error = some "parse_error" :=
  of_decide_eq_true (by with_unfolding_all rfl)

/-- C4 (amended): a timed-out configured invocation forces success = false,
and the error kind is "timeout" exactly when no rule-1–3 text matches and the
exit status selected on line 274 — the first nonzero among the first `json`
code, the `info` code, and the two `markdown` codes, the second `json` code
never being consulted — equals 124. -/
theorem timeout_classification (hash : String → String)
    (ps : String → Option (ℕ × ℕ × ℕ)) (cm : Bool) (f : FileInputs) :
    (anyTimedOut cm f = true → (processFile hash ps cm f).ok = false)
    ∧ ((processFile hash ps cm f).error = some "timeout" ↔
        ((processFile hash ps cm f).ok = false
          ∧ ruleEncrypted (fileText cm f) = false
          ∧ ruleDistribution (fileText cm f) = false
          ∧ ruleSizeLimit (fileText cm f) = false
          ∧ selectedCode cm f = 124)) := by
  constructor
  · intro h
    cases hok : (processFile hash ps cm f).ok
    · rfl
    · exfalso
      rcases (processFile_ok_iff hash ps cm f).mp hok with ⟨hi, ha, hb, hmd⟩
      simp only [anyTimedOut, Bool.or_eq_true, Bool.and_eq_true, beq_iff_eq] at h
      rcases h with ((((h | h) | h) | ⟨hc, h⟩) | ⟨hc, h⟩) <;>
        first
          | omega
          | (rcases hmd with hf | ⟨h1, h2⟩ <;>
              [(rw [hc] at hf; exact absurd hf (by simp)); omega])
  · rw [processFile_error_eq]
    by_cases hok : (processFile hash ps cm f).ok = true
    · simp [hok]
    · rw [if_neg hok]
      rw [Option.some_inj, classify_timeout_iff]
      simp only [fileText]
      simp only [Bool.not_eq_true] at hok
      simp [hok]

/-- C4 witness: a file whose `info` invocation timed out with no matching
output text is classified "timeout". -/
theorem timeout_classification_witness :
    (processFile hash0 stats0 false fileTimeoutInfo).error = some "timeout" :=
  (timeout_classification hash0 stats0 false fileTimeoutInfo).2.mpr
    (of_decide_eq_true (by with_unfolding_all rfl))

/-- C6 counterexample: with the markdown check enabled, a file whose `info`
invocation failed (so the overall run failed) but whose two `markdown`
invocations succeeded has non-null markdown hash and determinism fields,
because lines 239–242 fill them before `ok` is computed. -/
theorem md_hashes_set_despite_failure :
    (processFile hash0 stats0 true fileMdOnlyFail).ok = false
    ∧ (processFile hash0 stats0 true fileMdOnlyFail).md_sha256_a ≠ none
    ∧ (processFile hash0 stats0 true fileMdOnlyFail).md_sha256_b ≠ none
    ∧ (processFile hash0 stats0 true fileMdOnlyFail).md_deterministic ≠ none :=
  of_decide_eq_true (by with_unfolding_all rfl)

/-- C6 (amended): the structured-output hash fields and determinism boolean
are null exactly when the overall run failed, and when it succeeded the
determinism boolean compares the hashes of the two `json` outputs; the
markdown hash fields and markdown determinism boolean, however, are non-null
exactly when the markdown check is enabled and both `markdown` invocations
exited 0 — independent of overall success. -/
theorem determinism_fields (hash : String → String)
    (ps : String → Option (ℕ × ℕ × ℕ)) (cm : Bool) (f : FileInputs) :
    ((processFile hash ps cm f).out_sha256_a = none
        ↔ (processFile hash ps cm f).ok = false)
    ∧ ((processFile hash ps cm f).out_sha256_b = none
        ↔ (processFile hash ps cm f).ok = false)
    ∧ ((processFile hash ps cm f).deterministic = none
        ↔ (processFile hash ps cm f).ok = false)
    ∧ ((processFile hash ps cm f).ok = false
        ∨ (processFile hash ps cm f).deterministic
            = some (hash f.json_a.stdout == hash f.json_b.stdout))
    ∧ ((processFile hash ps cm f).md_sha256_a = none
        ↔ ¬(cm = true ∧ f.md_a.code = 0 ∧ f.md_b.code = 0))
    ∧ ((processFile hash ps cm f).md_sha256_b = none
        ↔ ¬(cm = true ∧ f.md_a.code = 0 ∧ f.md_b.code = 0))
    ∧ ((processFile hash ps cm f).md_deterministic = none
        ↔ ¬(cm = true ∧ f.md_a.code = 0 ∧ f.md_b.code = 0)) := by
  refine ⟨?_, ?_, ?_, ?_, ?_, ?_, ?_⟩ <;>
    cases cm <;> simp only [processFile] <;> split <;> simp_all <;> tauto

/-- C8: a record's error kind is null exactly when its success flag is true,
and consequently the failure histogram's literal "unknown" key is never
populated for records produced by the per-file loop. -/
theorem error_kind_null_iff_success (hash : String → String)
    (ps : String → Option (ℕ × ℕ × ℕ)) (cm : Bool) (f : FileInputs) :
    ((processFile hash ps cm f).error = none
        ↔ (processFile hash ps cm f).ok = true)
    ∧ (∀ fs : List FileInputs,
        failuresByType (fs.map (processFile hash ps cm)) "unknown" = 0) := by
  constructor
  · cases cm <;> simp only [processFile] <;> split <;> simp_all <;> tauto
  · intro fs
    rw [failuresByType, List.countP_eq_zero]
    intro r hr
    rcases List.mem_map.mp hr with ⟨g, _, hg⟩
    subst hg
    cases hok : (processFile hash ps cm g).ok
    · have herr := processFile_error_eq hash ps cm g
      rw [hok] at herr
      simp only [Bool.false_eq_true, if_false] at herr
      have hmem := classify_mem (concatStderr cm g) (concatStdout cm g) (selectedCode cm g)
      rcases hmem with h | h | h | h | h <;> simp [histKey, herr, h]
    · simp [hok]

theorem roundHalfEven_zero : roundHalfEven 0 = 0 :=
  of_decide_eq_true (by with_unfolding_all rfl)

theorem pick_mem (v : List ℕ) (hv : v ≠ []) (p : ℚ) : pick v p ∈ v := by
  have hlen : 0 < v.length := List.length_pos.mpr hv
  have hidx : pickIdx v.length p < v.length := by
    unfold pickIdx
    have h1 : min ((v.length : ℤ) - 1) (roundHalfEven (p * ((v.length : ℤ) - 1)))
        ≤ (v.length : ℤ) - 1 := min_le_left _ _
    omega
  rw [pick, List.getD_eq_getElem _ _ hidx]
  exact List.getElem_mem hidx

/-- C5: the determinism rate is the deterministic-and-successful count over
the successful count, 0 when there are no successes; appending a failed
record (which raises the raw total but not the success count) leaves the
rate unchanged, so the raw total is not in the denominator. -/
theorem det_rate_success_denominated (rs : List RunResult) :
    (detRate rs = if okCount rs = 0 then 0 else (detCount rs : ℚ) / (okCount rs : ℚ))
    ∧ (∀ r : RunResult, r.ok = false → detRate (rs ++ [r]) = detRate rs) := by
  constructor
  · unfold detRate rate
    by_cases h : okCount rs = 0 <;> simp [h]
  · intro r hr
    have h1 : okCount (rs ++ [r]) = okCount rs := by
      simp [okCount, List.countP_append, hr]
    have h2 : detCount (rs ++ [r]) = detCount rs := by
      simp [detCount, List.countP_append, hr]
    unfold detRate
    rw [h1, h2]

/-- C5 witness: appending a failed record to a singleton run leaves the
determinism rate unchanged. -/
theorem det_rate_success_denominated_witness :
    detRate ([recOkDetA] ++ [recFailA]) = detRate [recOkDetA] :=
  (det_rate_success_denominated [recOkDetA]).2 recFailA rfl

/-- C7: `percentiles` performs nearest-rank selection — on an empty list all
three percentiles are 0; on a singleton p50 = p95 = p99 equal the element;
and on any non-empty list each reported percentile is one of the input
values (selected from the sorted list, not interpolated). -/
theorem percentiles_nearest_rank :
    (percentiles [] = ⟨0, 0, 0⟩)
    ∧ (∀ x : ℕ, percentiles [x] = ⟨x, x, x⟩)
    ∧ (∀ xs : List ℕ, xs ≠ [] →
        (percentiles xs).p50 ∈ xs ∧ (percentiles xs).p95 ∈ xs
          ∧ (percentiles xs).p99 ∈ xs) := by
  refine ⟨by simp [percentiles], ?_, ?_⟩
  · intro x
    simp [percentiles, pick, pickIdx, List.insertionSort, List.orderedInsert,
      roundHalfEven_zero]
  · intro xs hxs
    have hperm : (List.insertionSort (· ≤ ·) xs).Perm xs :=
      List.perm_insertionSort (· ≤ ·) xs
    have hvne : List.insertionSort (· ≤ ·) xs ≠ [] := by
      intro h
      apply hxs
      rw [h] at hperm
      exact hperm.nil_eq.symm
    unfold percentiles
    rw [if_neg hxs]
    dsimp only
    exact ⟨hperm.mem_iff.mp (pick_mem _ hvne _),
      hperm.mem_iff.mp (pick_mem _ hvne _),
      hperm.mem_iff.mp (pick_mem _ hvne _)⟩

/-- C7 witness: on the two-element list `[3, 1]` the median is one of the
inputs. -/
theorem percentiles_nearest_rank_witness : (percentiles [3, 1]).p50 ∈ [3, 1] :=
  (percentiles_nearest_rank.2.2 [3, 1] (by decide)).1

/-- C9: with a non-empty category mapping whose entries include at least one
existing regular file, the resolved list is exactly the existing mapped
entries in declared order; otherwise it is the recursive scan, sorted,
restricted to regular files — `findCorpusFiles` coincides with the spec-side
`resolvedFilesSpec` description, the fallback is sorted, and the positive
file-count cap truncates after resolution. -/
theorem corpus_resolution (is_file : String → Bool) (scan : List String)
    (cmap : List (String × Option String)) (mf : ℤ) (l : List String) :
    findCorpusFiles is_file scan cmap = resolvedFilesSpec is_file scan cmap
    ∧ applyCap mf l = (if 0 < mf then l.take mf.toNat else l)
    ∧ (cmap = [] → List.Sorted (· ≤ ·) (findCorpusFiles is_file scan cmap)) := by
  refine ⟨?_, ?_, ?_⟩
  · unfold findCorpusFiles resolvedFilesSpec
    by_cases h1 : cmap = [] <;>
      by_cases h2 : (cmap.map Prod.fst).filter is_file = [] <;>
        simp [h1, h2]
  · unfold applyCap
    split_ifs <;> simp_all
  · intro h
    simp only [findCorpusFiles, h]
    simp only [ne_eq, not_true_eq_false, if_false]
    exact (List.sorted_insertionSort (· ≤ ·) scan).filter _

/-- C9 witness: with an empty mapping the resolved list is the sorted scan. -/
theorem corpus_resolution_witness : List.Sorted (· ≤ ·)
    (findCorpusFiles (fun _ => true) ["b.hwp", "a.hwp"] []) :=
  (corpus_resolution (fun _ => true) ["b.hwp", "a.hwp"] [] 0 []).2.2 rfl

theorem gateOk_iff (cfg : Config) (rs : List RunResult) :
    gateOk cfg rs = true ↔
      (cfg.min_corpus_size ≤ (rs.length : ℤ)
        ∧ (0 < catTotal rs "A" → cfg.min_success_a ≤ catRate rs "A")
        ∧ (0 < catTotal rs "B" → cfg.min_success_b ≤ catRate rs "B")
        ∧ (0 < catTotal rs "C" → cfg.min_success_c ≤ catRate rs "C")
        ∧ cfg.min_deterministic_rate ≤ detRate rs) := by
  unfold gateOk
  split_ifs with h1 h2 h3 h4 h5
  · simp only [Bool.false_eq_true, false_iff]
    rintro ⟨ha, -⟩
    omega
  · simp only [Bool.false_eq_true, false_iff]
    rintro ⟨-, hA, -⟩
    exact absurd (hA h2.1) (not_le.mpr h2.2)
  · simp only [Bool.false_eq_true, false_iff]
    rintro ⟨-, -, hB, -⟩
    exact absurd (hB h3.1) (not_le.mpr h3.2)
  · simp only [Bool.false_eq_true, false_iff]
    rintro ⟨-, -, -, hC, -⟩
    exact absurd (hC h4.1) (not_le.mpr h4.2)
  · simp only [Bool.false_eq_true, false_iff]
    rintro ⟨-, -, -, -, hd⟩
    exact absurd hd (not_le.mpr h5)
  · simp only [true_iff]
    have hlen : (0 : ℤ) ≤ (rs.length : ℤ) := Int.natCast_nonneg _
    refine ⟨by omega, ?_, ?_, ?_, not_lt.mp h5⟩
    · intro hpos
      by_contra hlt
      exact h2 ⟨hpos, not_le.mp hlt⟩
    · intro hpos
      by_contra hlt
      exact h3 ⟨hpos, not_le.mp hlt⟩
    · intro hpos
      by_contra hlt
      exact h4 ⟨hpos, not_le.mp hlt⟩

/-- C1: once setup has succeeded (corpus directory present, resolved list
non-empty, binary present), the gate exits 0 exactly when the total file
count reaches the minimum corpus size, every category among A/B/C that has
at least one file meets its per-category success-rate threshold (an empty
category is exempt), and the determinism rate meets its threshold; otherwise
it exits 2.  The right-hand side never mentions the unlabeled bucket "_":
its success rate is not compared against anything.  (`catRate` is the
program's per-category success rate, the 4-decimal-rounded value it also
reports; `detRate` is the unrounded determinism rate the gate compares.) -/
theorem gate_exit_code (cfg : Config) (rs : List RunResult) (hne : rs ≠ []) :
    (mainExit true true cfg rs = 0 ↔
      (cfg.min_corpus_size ≤ (rs.length : ℤ)
        ∧ (0 < catTotal rs "A" → cfg.min_success_a ≤ catRate rs "A")
        ∧ (0 < catTotal rs "B" → cfg.min_success_b ≤ catRate rs "B")
        ∧ (0 < catTotal rs "C" → cfg.min_success_c ≤ catRate rs "C")
        ∧ cfg.min_deterministic_rate ≤ detRate rs))
    ∧ (mainExit true true cfg rs = 2 ↔
      ¬(cfg.min_corpus_size ≤ (rs.length : ℤ)
        ∧ (0 < catTotal rs "A" → cfg.min_success_a ≤ catRate rs "A")
        ∧ (0 < catTotal rs "B" → cfg.min_success_b ≤ catRate rs "B")
        ∧ (0 < catTotal rs "C" → cfg.min_success_c ≤ catRate rs "C")
        ∧ cfg.min_deterministic_rate ≤ detRate rs)) := by
  have hiff := gateOk_iff cfg rs
  unfold mainExit
  simp only [Bool.not_true, Bool.false_eq_true, if_false, hne, if_neg hne]
  by_cases hg : gateOk cfg rs = true
  · rw [if_pos hg]
    have hb := hiff.mp hg
    exact ⟨⟨fun _ => hb, fun _ => rfl⟩,
      ⟨fun h => absurd h (by decide), fun hnb => absurd hb hnb⟩⟩
  · rw [if_neg hg]
    have hnb := fun hb => hg (hiff.mpr hb)
    exact ⟨⟨fun h => absurd h (by decide), fun hb => absurd hb hnb⟩,
      ⟨fun _ => hnb, fun _ => rfl⟩⟩

/-- A configuration meeting C1's hypotheses on a one-file corpus. -/
def cfg1 : Config := ⟨1, 19/20, 17/20, 4/5, 99/100⟩

/-- C1 witness: a single successful deterministic category-A file passes
every threshold of `cfg1` and the gate exits 0. -/
theorem gate_exit_code_witness : mainExit true true cfg1 [recOkDetA] = 0 :=
  (gate_exit_code cfg1 [recOkDetA] (by decide)).1.mpr
    (of_decide_eq_true (by with_unfolding_all rfl))

/-- The script's default thresholds (lines 175–179). -/
def cfgDefault : Config := ⟨100, 95/100, 85/100, 80/100, 99/100⟩

/-- A run of 1019 category-A files, 968 successful (all deterministic):
exact success rate 968/1019 ≈ 0.9499509, strictly below the 0.95 threshold,
but rounding to 4 decimals gives exactly 0.95. -/
def runRoundedCategory : List RunResult :=
  List.replicate 968 recOkDetA ++ List.replicate 51 recFailA

/-- A run of 299 successful category-A files of which 296 are deterministic:
exact determinism rate 296/299 ≈ 0.9899666, strictly below the 0.99
threshold, though it rounds to 0.99 at 4 decimals. -/
def runRoundedDeterminism : List RunResult :=
  List.replicate 296 recOkDetA ++ List.replicate 3 recOkNonDetA

/-- C10: the gate compares each category's success rate only after rounding
to 4 decimal places — on `runRoundedCategory` category A's exact rate is
strictly below the configured minimum, yet the rounded rate equals it and
the gate passes — while the determinism rate is compared unrounded — on
`runRoundedDeterminism` the determinism rate rounds to the configured
minimum, yet the gate fails. -/
theorem category_rate_rounding_asymmetry :
    exactCatRate runRoundedCategory "A" < cfgDefault.min_success_a
    ∧ catRate runRoundedCategory "A" = cfgDefault.min_success_a
    ∧ gateOk cfgDefault runRoundedCategory = true
    ∧ round4 (detRate runRoundedDeterminism) = cfgDefault.min_deterministic_rate
    ∧ detRate runRoundedDeterminism < cfgDefault.min_deterministic_rate
    ∧ gateOk cfgDefault runRoundedDeterminism = false :=
  of_decide_eq_true (by with_unfolding_all rfl)

end V1Gate
